import Mathlib

/-!
Shallow embedding of `src/camera_handle.cpp` (vrmagic_connector).

The hardware API (`VRmUsbCam*`) is modelled by explicit data: device
responses are fields of a `Device` record, hardware interactions are
recorded as an event trace (`DevOp` / `GrabEvent`), process termination
via `exit` is an explicit flag where the code can reach it, and the
`ROS_*` logging macros become log entries in the trace.  `VRM_CHECK`ed
calls are modelled as succeeding (their failure unconditionally calls
`exit`, which no claim here is about).  C++ `int` is `Int`, unsigned
sizes are `Nat`, and `float` values are modelled as `ℚ` (an exact
linearly ordered field; the sanitization code only compares and copies
float values, it performs no arithmetic on them).
-/

namespace Vrmagic

/-- Property identifiers used by the driver (subset of `VRmPropId`). -/
inductive VRmPropId where
  | grabSensorPropsSelect1
  | grabSensorPropsSelect2
  | grabSensorPropsSelect3
  | grabSensorPropsSelect4
  | camGainMonochromeI
  | camExposureTimeF
deriving DecidableEq, Repr

/-- Declared property types (`VRM_PROP_TYPE_*`). -/
inductive VRmPropType where
  | eInt
  | eFloat
  | eBool
deriving DecidableEq, Repr

/-- `VRmPropInfo`: declared type and human-readable description. -/
structure VRmPropInfo where
  m_type : VRmPropType
  m_description : String
deriving DecidableEq, Repr

/-- `VRmPropAttribsI`: hardware-reported range and default for an integer property. -/
structure VRmPropAttribsI where
  m_min : Int
  m_max : Int
  m_default : Int
deriving DecidableEq, Repr

/-- `VRmPropAttribsF`: hardware-reported range and default for a float property. -/
structure VRmPropAttribsF where
  m_min : ℚ
  m_max : ℚ
  m_default : ℚ
deriving DecidableEq, Repr

/-- One hardware interaction or log emission performed by the configuration
code.  `setPropE none` is the sensor-select write performed with the
indeterminate value produced when `portnumToPropId` falls off the end of
the function without returning (invalid port). -/
inductive DevOp where
  | getPropInfo (p : VRmPropId)
  | getAttribsI (p : VRmPropId)
  | getAttribsF (p : VRmPropId)
  | getSupported (p : VRmPropId)
  | setPropE (sel : Option VRmPropId)
  | setPropI (p : VRmPropId) (v : Int)
  | setPropF (p : VRmPropId) (v : ℚ)
  | logInfo (msg : String)
  | logWarn (msg : String)
  | logError (msg : String)
  | logFatal (msg : String)
deriving DecidableEq, Repr

/-- The device's responses to property queries: whether a property is
supported on the currently active sensor, its info record, and its
hardware-reported integer/float attributes. -/
structure Device where
  supported : VRmPropId → Bool
  propInfo : VRmPropId → VRmPropInfo
  attribsI : VRmPropId → VRmPropAttribsI
  attribsF : VRmPropId → VRmPropAttribsF

/-- The driver configuration (`Config` in the source). -/
structure Config where
  portLeft : Nat
  portRight : Nat
  gainLeft : Int
  gainRight : Int
  exposureLeft : ℚ
  exposureRight : ℚ
  setGain : Bool
  setExposure : Bool
  timeout : Nat
  frameId : String
  enableLogging : Bool

/-- `portnumToPropId`: maps a port number to a sensor-select property id.
The `default` case logs `ROS_FATAL` and then control falls off the end of
the non-void function, so no defined value is returned: modelled as
`none` together with the fatal log entry. -/
def portnumToPropId (port : Nat) : Option VRmPropId × List DevOp :=
  match port with
  | 1 => (some VRmPropId.grabSensorPropsSelect1, [])
  | 2 => (some VRmPropId.grabSensorPropsSelect2, [])
  | 3 => (some VRmPropId.grabSensorPropsSelect3, [])
  | 4 => (some VRmPropId.grabSensorPropsSelect4, [])
  | _ => (none, [DevOp.logFatal ("Cannot convert port to prop id")])

/-- `CameraHandle::setSensorActive`: converts the port number and writes the
resulting value to `VRM_PROPID_GRAB_SENSOR_PROPS_SELECT_E`.  The write is
unconditional in the source - it happens even after the fatal log of the
invalid-port case, then carrying an indeterminate value (`none`). -/
def setSensorActive (port : Nat) : List DevOp :=
  let r := portnumToPropId port
  r.2 ++ [DevOp.setPropE r.1]

/-- `CameraHandle::setSingleProperty(int, ...)`: activate the port, query
support; if supported write the value and log it, else log a warning and
write nothing. -/
def setSinglePropertyI (dev : Device) (value : Int) (property : VRmPropId) (port : Nat) :
    List DevOp :=
  setSensorActive port ++ DevOp.getSupported property ::
    (if dev.supported property then
      [DevOp.setPropI property value, DevOp.getPropInfo property,
       DevOp.logInfo ((dev.propInfo property).m_description ++ " changed")]
    else
      [DevOp.getPropInfo property,
       DevOp.logWarn ("Property " ++ (dev.propInfo property).m_description ++ " not supported!")])

/-- `CameraHandle::setSingleProperty(float, ...)`: same shape as the int
overload with the float setter. -/
def setSinglePropertyF (dev : Device) (value : ℚ) (property : VRmPropId) (port : Nat) :
    List DevOp :=
  setSensorActive port ++ DevOp.getSupported property ::
    (if dev.supported property then
      [DevOp.setPropF property value, DevOp.getPropInfo property,
       DevOp.logInfo ((dev.propInfo property).m_description ++ " changed")]
    else
      [DevOp.getPropInfo property,
       DevOp.logWarn ("Property " ++ (dev.propInfo property).m_description ++ " not supported!")])

/-- `CameraHandle::checkAndSanitizeProperty(int&, ...)`: read the property
info, report (without aborting) a declared-type mismatch, read the integer
attributes, and replace an out-of-range value by the hardware default
(with two warnings).  Returns the trace and the new value. -/
def checkAndSanitizePropertyI (dev : Device) (value : Int) (property : VRmPropId)
    (name : String) : List DevOp × Int :=
  let info := dev.propInfo property
  let typeLog :=
    if info.m_type ≠ VRmPropType.eInt then [DevOp.logError ("Invalid type of property!")] else []
  let a := dev.attribsI property
  if value < a.m_min ∨ value > a.m_max then
    (DevOp.getPropInfo property :: typeLog ++
       [DevOp.getAttribsI property,
        DevOp.logWarn ("Invalid value for parameter " ++ name),
        DevOp.logWarn ("Default will be used for " ++ name)],
     a.m_default)
  else
    (DevOp.getPropInfo property :: typeLog ++ [DevOp.getAttribsI property], value)

/-- `CameraHandle::checkAndSanitizeProperty(float&, ...)`: float analogue. -/
def checkAndSanitizePropertyF (dev : Device) (value : ℚ) (property : VRmPropId)
    (name : String) : List DevOp × ℚ :=
  let info := dev.propInfo property
  let typeLog :=
    if info.m_type ≠ VRmPropType.eFloat then [DevOp.logError ("Invalid type of property!")] else []
  let a := dev.attribsF property
  if value < a.m_min ∨ value > a.m_max then
    (DevOp.getPropInfo property :: typeLog ++
       [DevOp.getAttribsF property,
        DevOp.logWarn ("Invalid value for parameter " ++ name),
        DevOp.logWarn ("Default will be used for " ++ name)],
     a.m_default)
  else
    (DevOp.getPropInfo property :: typeLog ++ [DevOp.getAttribsF property], value)

/-- `CameraHandle::checkAndSanitizeConfig`: sanitizes gainLeft, gainRight,
exposureLeft, exposureRight in that order.  Note the source performs no
`setSensorActive` call here. -/
def checkAndSanitizeConfig (dev : Device) (conf : Config) : List DevOp × Config :=
  let gl := checkAndSanitizePropertyI dev conf.gainLeft VRmPropId.camGainMonochromeI ("gainLeft")
  let gr := checkAndSanitizePropertyI dev conf.gainRight VRmPropId.camGainMonochromeI ("gainRight")
  let el := checkAndSanitizePropertyF dev conf.exposureLeft VRmPropId.camExposureTimeF
    ("exposureLeft")
  let er := checkAndSanitizePropertyF dev conf.exposureRight VRmPropId.camExposureTimeF
    ("exposureRight")
  (gl.1 ++ gr.1 ++ el.1 ++ er.1,
   { conf with
      gainLeft := gl.2, gainRight := gr.2, exposureLeft := el.2, exposureRight := er.2 })

/-- Helper: whether an operation is the sensor-select (activation) write. -/
def isSensorSelect : DevOp → Bool
  | DevOp.setPropE _ => true
  | _ => false

/-- Helper: whether an operation writes a property value (int or float
setter; the sensor-select write is not a property-value write). -/
def isValueWrite : DevOp → Bool
  | DevOp.setPropI _ _ => true
  | DevOp.setPropF _ _ => true
  | _ => false

/-- Helper: whether an operation reads property attributes (the range query
of sanitization). -/
def isAttribsRead : DevOp → Bool
  | DevOp.getAttribsI _ => true
  | DevOp.getAttribsF _ => true
  | _ => false

/-- Helper: whether an operation is a fatal-severity log. -/
def isFatalLog : DevOp → Bool
  | DevOp.logFatal _ => true
  | _ => false

/-- Color formats (subset of `VRmColorFormat`). -/
inductive VRmColorFormat where
  | bgr3x8
  | argb4x8
  | gray8
deriving DecidableEq, Repr

/-- The fixed desired target color format (`VRM_BGR_3X8`). -/
def TARGET_COLOR_FORMAT : VRmColorFormat := VRmColorFormat.bgr3x8

/-- `VRmImageFormat`: dimensions and color format of an image format entry. -/
structure VRmImageFormat where
  m_width : Nat
  m_height : Nat
  m_color_format : VRmColorFormat
deriving DecidableEq, Repr

/-- The enumeration loop of `CameraHandle::setTargetFormat`: each iteration
stores the next list entry into the `targetFormat` member and breaks on
the first entry whose color format matches; if the list is exhausted (or
empty) the member keeps its last (or prior) value. -/
def setTargetFormatLoop (targetFormat : VRmImageFormat) :
    List VRmImageFormat → VRmImageFormat
  | [] => targetFormat
  | f :: fs =>
    if f.m_color_format = TARGET_COLOR_FORMAT then f else setTargetFormatLoop f fs

/-- Outcome of `setTargetFormat`: either `exit(-1)` after the fatal log, or
the cached target format. -/
inductive TargetFormatResult where
  | fatalExit
  | selected (fmt : VRmImageFormat)
deriving DecidableEq, Repr

/-- `CameraHandle::setTargetFormat`: run the enumeration loop starting from
the prior value of the `targetFormat` member (uninitialized at the only
call site), then exit fatally if the stored format still does not match
the desired color format. -/
def setTargetFormat (targetFormat0 : VRmImageFormat) (formats : List VRmImageFormat) :
    TargetFormatResult :=
  let tf := setTargetFormatLoop targetFormat0 formats
  if tf.m_color_format ≠ TARGET_COLOR_FORMAT then TargetFormatResult.fatalExit
  else TargetFormatResult.selected tf

/-- `VRmDeviceKey`: busy flag and product string of one enumerated device. -/
structure VRmDeviceKey where
  m_busy : Bool
  m_product : String
deriving DecidableEq, Repr

/-- Outcome of `CameraHandle::openDevice`: either process termination
(`VRM_CHECK` failure during enumeration, or no free device found) or the
opened device key. -/
inductive OpenResult where
  | fatalExit
  | opened (k : VRmDeviceKey)
deriving DecidableEq, Repr

/-- The enumeration loop of `CameraHandle::openDevice` over the device key
list (`none` entries model `VRmUsbCamGetDeviceKeyListEntry` failing, which
`VRM_CHECK` turns into `exit`).  Busy entries are skipped; the first
non-busy entry is opened, after which the loop condition `!device` stops
the iteration; an exhausted list reaches the `!device` fatal check. -/
def openDeviceLoop : List (Option VRmDeviceKey) → OpenResult
  | [] => OpenResult.fatalExit
  | none :: _ => OpenResult.fatalExit
  | some k :: rest =>
    if k.m_busy then openDeviceLoop rest else OpenResult.opened k

/-- `CameraHandle::openDevice`, as a function of the enumerated key list. -/
def openDevice (keys : List (Option VRmDeviceKey)) : OpenResult :=
  openDeviceLoop keys

/-- `VRmImage` after conversion: the converted target image's dimensions,
row pitch (may exceed `m_width * 3` by padding) and pixel buffer, the
buffer modelled as a total byte store indexed like the C pointer
`mp_buffer`. -/
structure VRmImage where
  m_width : Nat
  m_height : Nat
  m_pitch : Nat
  mp_buffer : Nat → Nat

/-- The `sensor_msgs::Image` message filled by `grabFrame`. -/
structure Image where
  width : Nat
  height : Nat
  step : Nat
  encoding : String
  data : List Nat
  stamp : Nat
  frame_id : String

/-- Buffer-management events and logs of `CameraHandle::grabFrame`. -/
inductive GrabEvent where
  | newImage
  | convertImage
  | freeImage
  | unlockImage
  | fatalLog (msg : String)
deriving DecidableEq, Repr

/-- Result of one `grabFrame` call: the (possibly updated) image message,
the events performed, and whether the process terminated. -/
structure GrabResult where
  img : Image
  events : List GrabEvent
  exits : Bool

/-- The strided-to-packed copy of `grabFrame`: the nested loop writes, for
each row `y` below the height and each byte offset `x` below `w * 3`,
the source byte at `y * pitch + x` to output index `y * (w * 3) + x`.
Since the writes cover the resized buffer exactly once in row-major
order, the buffer is the concatenation of the packed rows. -/
def packBuffer (buf : Nat → Nat) (pitch w : Nat) : Nat → List Nat
  | 0 => []
  | y + 1 =>
    packBuffer buf pitch w y ++ (List.range (w * 3)).map (fun x => buf (y * pitch + x))

/-- `CameraHandle::grabFrame`.  `lockResult` is the outcome of
`VRmUsbCamLockNextImageEx2` followed (on success) by `VRmUsbCamNewImage` /
`VRmUsbCamConvertImage`: `some tgt` is the converted target image, `none`
the lock failure or timeout.  On success the image message is filled and
the packed copy is performed; on failure only `ROS_FATAL` runs - the
source contains no `exit` call on that path and the message is untouched. -/
def grabFrame (conf : Config) (lockResult : Option VRmImage) (img : Image)
    (triggerTime : Nat) : GrabResult :=
  match lockResult with
  | some targetImage =>
    { img :=
        { width := targetImage.m_width
          height := targetImage.m_height
          step := targetImage.m_width * 3
          encoding := "bgr8"
          data := packBuffer targetImage.mp_buffer targetImage.m_pitch
            targetImage.m_width targetImage.m_height
          stamp := triggerTime
          frame_id := conf.frameId }
      events := [GrabEvent.newImage, GrabEvent.convertImage, GrabEvent.freeImage,
        GrabEvent.unlockImage]
      exits := false }
  | none =>
    { img := img
      events := [GrabEvent.fatalLog ("Could not lock image")]
      exits := false }

/-- Concrete device used by witnesses: every property supported, gain is an
int property with range [0, 1000] and default 500, exposure is a float
property with range [0, 100] and default 10. -/
def dev0 : Device where
  supported := fun _ => true
  propInfo := fun p =>
    match p with
    | VRmPropId.camExposureTimeF => ⟨VRmPropType.eFloat, "exposure"⟩
    | _ => ⟨VRmPropType.eInt, "gain"⟩
  attribsI := fun _ => ⟨0, 1000, 500⟩
  attribsF := fun _ => ⟨0, 100, 10⟩

/-- Device whose gain property is declared float: a declared-type mismatch
for the integer sanitizer. -/
def devMismatch : Device where
  supported := fun _ => true
  propInfo := fun _ => ⟨VRmPropType.eFloat, "gain"⟩
  attribsI := fun _ => ⟨0, 1000, 500⟩
  attribsF := fun _ => ⟨0, 100, 10⟩

/-- Concrete configuration used by witnesses and counterexamples. -/
def conf0 : Config where
  portLeft := 1
  portRight := 2
  gainLeft := 5000
  gainRight := 5
  exposureLeft := 25
  exposureRight := 200
  setGain := true
  setExposure := true
  timeout := 5000
  frameId := "vrmagic"
  enableLogging := false

/-- Concrete image message used to observe the failure path of `grabFrame`. -/
def img0 : Image where
  width := 7
  height := 9
  step := 11
  encoding := "mono8"
  data := [1, 2, 3]
  stamp := 42
  frame_id := "old"

/-- Concrete converted target image: 2 x 2 pixels, pitch 7 (one padding
byte per row), buffer holding its own index so padding bytes are
distinguishable. -/
def tgt0 : VRmImage where
  m_width := 2
  m_height := 2
  m_pitch := 7
  mp_buffer := fun i => i

/-- Concrete device keys used by the open-device witness. -/
def keyBusy : VRmDeviceKey := ⟨true, "busyCam"⟩

/-- A free (non-busy) device key. -/
def keyFree : VRmDeviceKey := ⟨false, "freeCam"⟩

/-- Whether an enumerated device-key entry is a busy key. -/
def isBusyEntry : Option VRmDeviceKey → Bool
  | some k => k.m_busy
  | none => false

/-- A target-format entry with a non-matching (gray) color format. -/
def fmtGray : VRmImageFormat := ⟨640, 480, VRmColorFormat.gray8⟩

/-- A target-format entry with the desired BGR color format. -/
def fmtBGR : VRmImageFormat := ⟨640, 480, VRmColorFormat.bgr3x8⟩

/-- A second BGR entry, later in the enumeration order. -/
def fmtBGR2 : VRmImageFormat := ⟨320, 240, VRmColorFormat.bgr3x8⟩

/-- Device on which no property is supported. -/
def devUnsup : Device where
  supported := fun _ => false
  propInfo := fun p =>
    match p with
    | VRmPropId.camExposureTimeF => ⟨VRmPropType.eFloat, "exposure"⟩
    | _ => ⟨VRmPropType.eInt, "gain"⟩
  attribsI := fun _ => ⟨0, 1000, 500⟩
  attribsF := fun _ => ⟨0, 100, 10⟩

lemma packBuffer_length (buf : Nat → Nat) (pitch w : Nat) :
    ∀ h, (packBuffer buf pitch w h).length = h * (w * 3) := by
  intro h
  induction h with
  | zero => simp [packBuffer]
  | succ n ih => simp [packBuffer, ih, Nat.succ_mul]

lemma packBuffer_getElem? (buf : Nat → Nat) (pitch w : Nat) :
    ∀ h y x, y < h → x < w * 3 →
      (packBuffer buf pitch w h)[y * (w * 3) + x]? = some (buf (y * pitch + x)) := by
  intro h
  induction h with
  | zero => intro y x hy _; exact absurd hy (Nat.not_lt_zero y)
  | succ n ih =>
    intro y x hy hx
    rcases Nat.lt_succ_iff_lt_or_eq.mp hy with h1 | h1
    · have hb : y * (w * 3) + x < (packBuffer buf pitch w n).length := by
        rw [packBuffer_length]
        calc y * (w * 3) + x < y * (w * 3) + w * 3 := by omega
          _ = (y + 1) * (w * 3) := by ring
          _ ≤ n * (w * 3) := Nat.mul_le_mul_right _ h1
      rw [packBuffer, List.getElem?_append_left hb]
      exact ih y x h1 hx
    · subst h1
      have hlen : (packBuffer buf pitch w y).length ≤ y * (w * 3) + x := by
        rw [packBuffer_length]
        omega
      rw [packBuffer, List.getElem?_append_right hlen, packBuffer_length]
      simp [hx]

lemma openDeviceLoop_skips_busy :
    ∀ (pre rest : List (Option VRmDeviceKey)), (∀ e ∈ pre, isBusyEntry e = true) →
      openDeviceLoop (pre ++ rest) = openDeviceLoop rest := by
  intro pre
  induction pre with
  | nil => intro rest _; rfl
  | cons e pre ih =>
    intro rest h
    have hb := h e (List.mem_cons_self e pre)
    match e with
    | none => simp [isBusyEntry] at hb
    | some k =>
      simp only [isBusyEntry] at hb
      rw [List.cons_append, openDeviceLoop, hb]
      simp only [if_true]
      exact ih rest (fun x hx => h x (List.mem_cons_of_mem _ hx))

lemma setTargetFormatLoop_append_no_match :
    ∀ (prior : VRmImageFormat) (pre rest : List VRmImageFormat),
      (∀ g ∈ pre, g.m_color_format ≠ TARGET_COLOR_FORMAT) →
      ∃ p2, setTargetFormatLoop prior (pre ++ rest) = setTargetFormatLoop p2 rest := by
  intro prior pre
  induction pre generalizing prior with
  | nil => intro rest _; exact ⟨prior, rfl⟩
  | cons g pre ih =>
    intro rest h
    have hg := h g (List.mem_cons_self g pre)
    rw [List.cons_append, setTargetFormatLoop, if_neg hg]
    exact ih g rest (fun x hx => h x (List.mem_cons_of_mem _ hx))

lemma setTargetFormatLoop_mem_of_no_match :
    ∀ (prior : VRmImageFormat) (formats : List VRmImageFormat), formats ≠ [] →
      (∀ g ∈ formats, g.m_color_format ≠ TARGET_COLOR_FORMAT) →
      setTargetFormatLoop prior formats ∈ formats := by
  intro prior formats
  induction formats generalizing prior with
  | nil => intro h _; exact absurd rfl h
  | cons f fs ih =>
    intro _ h
    have hf := h f (List.mem_cons_self f fs)
    rw [setTargetFormatLoop, if_neg hf]
    match fs with
    | [] => exact List.mem_cons_self f []
    | g :: gs =>
      exact List.mem_cons_of_mem f
        (ih f (List.cons_ne_nil g gs) (fun x hx => h x (List.mem_cons_of_mem _ hx)))

lemma setSensorActive_no_value_write (port : Nat) :
    ∀ op ∈ setSensorActive port, isValueWrite op = false := by
  intro op hop
  rcases port with _ | _ | _ | _ | _ | n <;>
    simp only [setSensorActive, portnumToPropId, List.nil_append, List.cons_append,
      List.mem_cons, List.mem_singleton, List.not_mem_nil, or_false] at hop <;>
    first
      | (rcases hop with rfl | rfl; rfl; rfl)
      | (rcases hop with rfl; rfl)

lemma checkAndSanitizePropertyI_no_select (dev : Device) (v : Int) (p : VRmPropId)
    (n : String) :
    ((checkAndSanitizePropertyI dev v p n).1.all fun op => !isSensorSelect op) = true := by
  simp only [checkAndSanitizePropertyI]
  split_ifs <;> simp [isSensorSelect]

lemma checkAndSanitizePropertyF_no_select (dev : Device) (v : ℚ) (p : VRmPropId)
    (n : String) :
    ((checkAndSanitizePropertyF dev v p n).1.all fun op => !isSensorSelect op) = true := by
  simp only [checkAndSanitizePropertyF]
  split_ifs <;> simp [isSensorSelect]

/-- Claim C1: for every frame produced by grabFrame on a successful lock,
the output buffer length equals height times step, step equals width
times 3, and for every row y below the height and byte offset x below
width times 3 the output byte at index y * (width * 3) + x equals the
converted image's byte at index y * pitch + x: exactly width * 3 bytes
are copied per row and no padding bytes of the source pitch survive. -/
theorem grabFrame_packs_tightly (conf : Config) (tgt : VRmImage) (imgIn : Image) (t : Nat) :
    (grabFrame conf (some tgt) imgIn t).img.step =
      (grabFrame conf (some tgt) imgIn t).img.width * 3 ∧
    (grabFrame conf (some tgt) imgIn t).img.data.length =
      (grabFrame conf (some tgt) imgIn t).img.height *
        (grabFrame conf (some tgt) imgIn t).img.step ∧
    ∀ y x, y < (grabFrame conf (some tgt) imgIn t).img.height →
      x < (grabFrame conf (some tgt) imgIn t).img.width * 3 →
      (grabFrame conf (some tgt) imgIn t).img.data.getD
          (y * ((grabFrame conf (some tgt) imgIn t).img.width * 3) + x) 0 =
        tgt.mp_buffer (y * tgt.m_pitch + x) := by
  dsimp only [grabFrame]
  refine ⟨rfl, packBuffer_length _ _ _ _, ?_⟩
  intro y x hy hx
  rw [List.getD_eq_getElem?_getD,
    packBuffer_getElem? tgt.mp_buffer tgt.m_pitch tgt.m_width tgt.m_height y x hy hx]
  rfl

/-- Witness for C1 at a concrete 2 x 2 image with pitch 7 and the identity
byte store: row 1, offset 4 reads source index 1 * 7 + 4. -/
theorem grabFrame_packs_tightly_witness :
    (1 < (grabFrame conf0 (some tgt0) img0 42).img.height ∧
      4 < (grabFrame conf0 (some tgt0) img0 42).img.width * 3) ∧
    (grabFrame conf0 (some tgt0) img0 42).img.data.getD
        (1 * ((grabFrame conf0 (some tgt0) img0 42).img.width * 3) + 4) 0 =
      tgt0.mp_buffer (1 * tgt0.m_pitch + 4) :=
  ⟨⟨by decide, by decide⟩,
   (grabFrame_packs_tightly conf0 tgt0 img0 42).2.2 1 4 (by decide) (by decide)⟩

/-- Claim C2: sanitization of a numeric (integer or float) property value
leaves an in-range value unchanged and replaces an out-of-range value by
the hardware-reported default while emitting a warning. -/
theorem checkAndSanitizeProperty_range (dev : Device) (vi : Int) (vf : ℚ)
    (p q : VRmPropId) (ni nf : String) :
    (((dev.attribsI p).m_min ≤ vi ∧ vi ≤ (dev.attribsI p).m_max) →
      (checkAndSanitizePropertyI dev vi p ni).2 = vi) ∧
    ((vi < (dev.attribsI p).m_min ∨ vi > (dev.attribsI p).m_max) →
      (checkAndSanitizePropertyI dev vi p ni).2 = (dev.attribsI p).m_default ∧
      DevOp.logWarn ("Default will be used for " ++ ni) ∈
        (checkAndSanitizePropertyI dev vi p ni).1) ∧
    (((dev.attribsF q).m_min ≤ vf ∧ vf ≤ (dev.attribsF q).m_max) →
      (checkAndSanitizePropertyF dev vf q nf).2 = vf) ∧
    ((vf < (dev.attribsF q).m_min ∨ vf > (dev.attribsF q).m_max) →
      (checkAndSanitizePropertyF dev vf q nf).2 = (dev.attribsF q).m_default ∧
      DevOp.logWarn ("Default will be used for " ++ nf) ∈
        (checkAndSanitizePropertyF dev vf q nf).1) := by
  refine ⟨?_, ?_, ?_, ?_⟩
  · intro h
    simp only [checkAndSanitizePropertyI]
    rw [if_neg (by omega)]
  · intro h
    simp only [checkAndSanitizePropertyI]
    rw [if_pos h]
    exact ⟨rfl, by simp⟩
  · intro h
    simp only [checkAndSanitizePropertyF]
    rw [if_neg (by rintro (hc | hc) <;> linarith [h.1, h.2])]
  · intro h
    simp only [checkAndSanitizePropertyF]
    rw [if_pos h]
    exact ⟨rfl, by simp⟩

/-- Witness for C2 on the concrete device dev0 (gain range [0, 1000] with
default 500, exposure range [0, 100] with default 10): 5 and 25 are kept,
5000 becomes 500, 200 becomes 10. -/
theorem checkAndSanitizeProperty_range_witness :
    (checkAndSanitizePropertyI dev0 5 VRmPropId.camGainMonochromeI ("gainRight")).2 = 5 ∧
    (checkAndSanitizePropertyI dev0 5000 VRmPropId.camGainMonochromeI ("gainLeft")).2 = 500 ∧
    (checkAndSanitizePropertyF dev0 25 VRmPropId.camExposureTimeF ("exposureLeft")).2 = 25 ∧
    (checkAndSanitizePropertyF dev0 200 VRmPropId.camExposureTimeF ("exposureRight")).2 = 10 :=
  ⟨(checkAndSanitizeProperty_range dev0 5 25 VRmPropId.camGainMonochromeI
      VRmPropId.camExposureTimeF ("gainRight") ("exposureLeft")).1 (by decide),
   ((checkAndSanitizeProperty_range dev0 5000 25 VRmPropId.camGainMonochromeI
      VRmPropId.camExposureTimeF ("gainLeft") ("exposureLeft")).2.1 (by decide)).1,
   (checkAndSanitizeProperty_range dev0 5 25 VRmPropId.camGainMonochromeI
      VRmPropId.camExposureTimeF ("gainRight") ("exposureLeft")).2.2.1 (by norm_num [dev0]),
   ((checkAndSanitizeProperty_range dev0 5 200 VRmPropId.camGainMonochromeI
      VRmPropId.camExposureTimeF ("gainRight") ("exposureRight")).2.2.2 (by norm_num [dev0])).1⟩

/-- Claim C3 (evaluated at the failing input): when the lock attempt fails,
grabFrame emits the FATAL log, allocates no target image, leaves the
message untouched - and returns with the process still running: the
source has no exit call on this path, so no termination occurs. -/
theorem grabFrame_lock_failure_behaviour :
    (grabFrame conf0 none img0 42).exits = false ∧
    GrabEvent.fatalLog ("Could not lock image") ∈ (grabFrame conf0 none img0 42).events ∧
    GrabEvent.newImage ∉ (grabFrame conf0 none img0 42).events ∧
    (grabFrame conf0 none img0 42).img = img0 := by
  refine ⟨rfl, ?_, ?_, rfl⟩ <;> decide

/-- Claim C4 (evaluated at the failing input): ports 1 to 4 map totally to
their sensor-select properties and the select property is written; for
port 5 the code logs FATAL, falls off the end of portnumToPropId (the
returned value is undefined, modelled as none) and still performs the
sensor-select hardware write - the invalid port is not rejected before
the write. -/
theorem setSensorActive_port_mapping :
    setSensorActive 1 = [DevOp.setPropE (some VRmPropId.grabSensorPropsSelect1)] ∧
    setSensorActive 2 = [DevOp.setPropE (some VRmPropId.grabSensorPropsSelect2)] ∧
    setSensorActive 3 = [DevOp.setPropE (some VRmPropId.grabSensorPropsSelect3)] ∧
    setSensorActive 4 = [DevOp.setPropE (some VRmPropId.grabSensorPropsSelect4)] ∧
    setSensorActive 5 =
      [DevOp.logFatal ("Cannot convert port to prop id"), DevOp.setPropE none] :=
  ⟨rfl, rfl, rfl, rfl, rfl⟩

/-- Counterexample to claim C5: checkAndSanitizeConfig performs property
attribute reads while its whole trace contains no sensor-select
(activation) operation, so the sanitization reads do not first select the
port they are about. -/
theorem checkAndSanitizeConfig_reads_without_activation :
    ((checkAndSanitizeConfig dev0 conf0).1.any isAttribsRead = true) ∧
    (((checkAndSanitizeConfig dev0 conf0).1.all fun op => !isSensorSelect op) = true) := by
  exact ⟨by decide, by decide⟩

/-- Claim C5 (amended): the apply path (setSingleProperty, both overloads)
first selects its target sensor port - its trace begins with the
activation trace - while the sanitization path (checkAndSanitizeConfig)
performs no activation at all and reads on the currently active sensor. -/
theorem property_ops_port_selection (dev : Device) (conf : Config) (vi : Int) (vf : ℚ)
    (p : VRmPropId) (port : Nat) :
    (∃ rest, setSinglePropertyI dev vi p port = setSensorActive port ++ rest) ∧
    (∃ rest, setSinglePropertyF dev vf p port = setSensorActive port ++ rest) ∧
    (((checkAndSanitizeConfig dev conf).1.all fun op => !isSensorSelect op) = true) := by
  refine ⟨⟨_, rfl⟩, ⟨_, rfl⟩, ?_⟩
  simp only [checkAndSanitizeConfig, List.all_append]
  rw [checkAndSanitizePropertyI_no_select, checkAndSanitizePropertyI_no_select,
    checkAndSanitizePropertyF_no_select, checkAndSanitizePropertyF_no_select]
  rfl

/-- Counterexample to claim C6: the empty target-format list contains no
entry with the desired color format, yet negotiation does not fail
fatally when the prior (uninitialized) member value happens to carry the
desired color format - the loop body never runs and the stale value
passes the check. -/
theorem setTargetFormat_empty_list_no_fatal :
    setTargetFormat ⟨0, 0, VRmColorFormat.bgr3x8⟩ [] ≠ TargetFormatResult.fatalExit ∧
    setTargetFormat ⟨0, 0, VRmColorFormat.bgr3x8⟩ [] =
      TargetFormatResult.selected ⟨0, 0, VRmColorFormat.bgr3x8⟩ := by
  exact ⟨by decide, rfl⟩

/-- Claim C6 (amended): over any list containing an entry with the desired
color format, setTargetFormat selects the first such entry as the cached
target format; over any nonempty list containing no such entry it exits
fatally (on the empty list the outcome depends on the indeterminate prior
value of the cached member). -/
theorem setTargetFormat_negotiation (prior : VRmImageFormat)
    (formats : List VRmImageFormat) :
    (∀ pre f post, formats = pre ++ f :: post →
      f.m_color_format = TARGET_COLOR_FORMAT →
      (∀ g ∈ pre, g.m_color_format ≠ TARGET_COLOR_FORMAT) →
      setTargetFormat prior formats = TargetFormatResult.selected f) ∧
    (formats ≠ [] → (∀ g ∈ formats, g.m_color_format ≠ TARGET_COLOR_FORMAT) →
      setTargetFormat prior formats = TargetFormatResult.fatalExit) := by
  constructor
  · intro pre f post hkeys hf hpre
    subst hkeys
    obtain ⟨p2, hp2⟩ := setTargetFormatLoop_append_no_match prior pre (f :: post) hpre
    simp only [setTargetFormat, hp2, setTargetFormatLoop, if_pos hf]
    rw [if_neg (by simp [hf])]
  · intro hne hno
    have hmem := setTargetFormatLoop_mem_of_no_match prior formats hne hno
    have hnm := hno _ hmem
    simp only [setTargetFormat]
    rw [if_pos hnm]

/-- Witness for C6: the first BGR entry is selected, skipping the gray
entry and ignoring the later BGR entry. -/
theorem setTargetFormat_negotiation_witness :
    setTargetFormat fmtGray [fmtGray, fmtBGR, fmtBGR2] = TargetFormatResult.selected fmtBGR :=
  (setTargetFormat_negotiation fmtGray [fmtGray, fmtBGR, fmtBGR2]).1 [fmtGray] fmtBGR
    [fmtBGR2] rfl rfl (by decide)

/-- Claim C7: for a property unsupported on the active sensor,
setSingleProperty (both overloads) emits a warning and performs no
property-value write; for a supported property the value is written with
the type-appropriate setter and the change is logged. -/
theorem setSingleProperty_support (dev : Device) (vi : Int) (vf : ℚ) (p : VRmPropId)
    (port : Nat) :
    (dev.supported p = false →
      (∀ op ∈ setSinglePropertyI dev vi p port, isValueWrite op = false) ∧
      DevOp.logWarn ("Property " ++ (dev.propInfo p).m_description ++ " not supported!") ∈
        setSinglePropertyI dev vi p port ∧
      (∀ op ∈ setSinglePropertyF dev vf p port, isValueWrite op = false) ∧
      DevOp.logWarn ("Property " ++ (dev.propInfo p).m_description ++ " not supported!") ∈
        setSinglePropertyF dev vf p port) ∧
    (dev.supported p = true →
      DevOp.setPropI p vi ∈ setSinglePropertyI dev vi p port ∧
      DevOp.logInfo ((dev.propInfo p).m_description ++ " changed") ∈
        setSinglePropertyI dev vi p port ∧
      DevOp.setPropF p vf ∈ setSinglePropertyF dev vf p port ∧
      DevOp.logInfo ((dev.propInfo p).m_description ++ " changed") ∈
        setSinglePropertyF dev vf p port) := by
  constructor
  · intro hs
    refine ⟨?_, by simp [setSinglePropertyI, hs], ?_, by simp [setSinglePropertyF, hs]⟩
    · intro op hop
      simp only [setSinglePropertyI, hs] at hop
      rcases List.mem_append.mp hop with h1 | h1
      · exact setSensorActive_no_value_write port op h1
      · simp only [Bool.false_eq_true, if_false, List.mem_cons, List.mem_singleton,
          List.not_mem_nil, or_false] at h1
        rcases h1 with rfl | rfl | rfl <;> rfl
    · intro op hop
      simp only [setSinglePropertyF, hs] at hop
      rcases List.mem_append.mp hop with h1 | h1
      · exact setSensorActive_no_value_write port op h1
      · simp only [Bool.false_eq_true, if_false, List.mem_cons, List.mem_singleton,
          List.not_mem_nil, or_false] at h1
        rcases h1 with rfl | rfl | rfl <;> rfl
  · intro hs
    refine ⟨?_, ?_, ?_, ?_⟩ <;> simp [setSinglePropertyI, setSinglePropertyF, hs]

/-- Witness for C7: on devUnsup the warning is in the trace; on dev0 the
value write is in the trace. -/
theorem setSingleProperty_support_witness :
    DevOp.logWarn ("Property " ++
        (devUnsup.propInfo VRmPropId.camGainMonochromeI).m_description ++ " not supported!") ∈
      setSinglePropertyI devUnsup 5 VRmPropId.camGainMonochromeI 1 ∧
    DevOp.setPropI VRmPropId.camGainMonochromeI 5 ∈
      setSinglePropertyI dev0 5 VRmPropId.camGainMonochromeI 1 :=
  ⟨((setSingleProperty_support devUnsup 5 10 VRmPropId.camGainMonochromeI 1).1 rfl).2.1,
   ((setSingleProperty_support dev0 5 10 VRmPropId.camGainMonochromeI 1).2 rfl).1⟩

/-- Claim C8: on a declared-type mismatch the integer sanitizer logs an
error but does not abort: no fatal log occurs, the attribute read of the
originally expected integer type is still performed, and the range check
still decides the returned value. -/
theorem checkAndSanitizeProperty_type_mismatch (dev : Device) (v : Int) (p : VRmPropId)
    (n : String) (h : (dev.propInfo p).m_type ≠ VRmPropType.eInt) :
    DevOp.logError ("Invalid type of property!") ∈ (checkAndSanitizePropertyI dev v p n).1 ∧
    DevOp.getAttribsI p ∈ (checkAndSanitizePropertyI dev v p n).1 ∧
    (∀ op ∈ (checkAndSanitizePropertyI dev v p n).1, isFatalLog op = false) ∧
    (checkAndSanitizePropertyI dev v p n).2 =
      (if v < (dev.attribsI p).m_min ∨ v > (dev.attribsI p).m_max
        then (dev.attribsI p).m_default else v) := by
  simp only [checkAndSanitizePropertyI, if_pos h]
  split_ifs with hr
  · refine ⟨by simp, by simp, ?_, rfl⟩
    intro op hop
    simp only [List.cons_append, List.mem_cons, List.mem_append, List.mem_singleton,
      List.not_mem_nil, or_false, false_or] at hop
    rcases hop with rfl | rfl | rfl | rfl | rfl <;> rfl
  · refine ⟨by simp, by simp, ?_, rfl⟩
    intro op hop
    simp only [List.cons_append, List.mem_cons, List.mem_append, List.mem_singleton,
      List.not_mem_nil, or_false, false_or] at hop
    rcases hop with rfl | rfl | rfl <;> rfl

/-- Witness for C8 on devMismatch, whose gain property is declared float. -/
theorem checkAndSanitizeProperty_type_mismatch_witness :
    DevOp.logError ("Invalid type of property!") ∈
      (checkAndSanitizePropertyI devMismatch 5 VRmPropId.camGainMonochromeI ("gainLeft")).1 ∧
    DevOp.getAttribsI VRmPropId.camGainMonochromeI ∈
      (checkAndSanitizePropertyI devMismatch 5 VRmPropId.camGainMonochromeI ("gainLeft")).1 :=
  ⟨(checkAndSanitizeProperty_type_mismatch devMismatch 5 VRmPropId.camGainMonochromeI
      ("gainLeft") (by decide)).1,
   (checkAndSanitizeProperty_type_mismatch devMismatch 5 VRmPropId.camGainMonochromeI
      ("gainLeft") (by decide)).2.1⟩

/-- Claim C9: openDevice skips every busy key, opens the first non-busy key
(regardless of any later entries), and exits fatally when every enumerated
entry is busy or when enumeration fails after a busy-only prefix. -/
theorem openDevice_first_free (keys : List (Option VRmDeviceKey)) :
    ((∀ e ∈ keys, isBusyEntry e = true) → openDevice keys = OpenResult.fatalExit) ∧
    (∀ pre k post, keys = pre ++ some k :: post → k.m_busy = false →
      (∀ e ∈ pre, isBusyEntry e = true) → openDevice keys = OpenResult.opened k) ∧
    (∀ pre post, keys = pre ++ none :: post → (∀ e ∈ pre, isBusyEntry e = true) →
      openDevice keys = OpenResult.fatalExit) := by
  refine ⟨?_, ?_, ?_⟩
  · intro hall
    have h := openDeviceLoop_skips_busy keys [] hall
    rw [List.append_nil] at h
    exact h
  · intro pre k post hkeys hb hpre
    subst hkeys
    show openDeviceLoop (pre ++ some k :: post) = _
    rw [openDeviceLoop_skips_busy pre _ hpre, openDeviceLoop, hb]
    simp
  · intro pre post hkeys hpre
    subst hkeys
    show openDeviceLoop (pre ++ none :: post) = _
    rw [openDeviceLoop_skips_busy pre _ hpre]
    rfl

/-- Witness for C9: the busy first key is skipped, the free second key is
opened, and the free third key is ignored. -/
theorem openDevice_first_free_witness :
    openDevice [some keyBusy, some keyFree, some ⟨false, "lateCam"⟩] =
      OpenResult.opened keyFree :=
  (openDevice_first_free [some keyBusy, some keyFree, some ⟨false, "lateCam"⟩]).2.1
    [some keyBusy] keyFree [some ⟨false, "lateCam"⟩] rfl rfl (by decide)

/-- Claim C10: when the frame-lock attempt fails or times out, the
caller-supplied image message is returned entirely unchanged: no field of
it is modified on the failure path. -/
theorem grabFrame_lock_failure_preserves_image (conf : Config) (img : Image) (t : Nat) :
    (grabFrame conf none img t).img = img := rfl

end Vrmagic
